import Mathlib

/-!
Verification of the Multiagent-A2A repository core: the host-agent streaming
aggregation loop, the chat-boundary error handling, the remote-agent invoke
and stream methods, startup configuration checking, cleanup, and the agent
cards.  Every definition is a shallow embedding of the corresponding Python
function; strings are Lean strings, each duck-typed branch of the event loop
becomes one constructor of a tagged event type, and raised exceptions become
explicit outcome constructors.
-/

namespace A2A

/-- A chat message yielded back to the gradio chat front end
(`gr.ChatMessage(role=..., content=...)`). -/
structure ChatMessage where
  role : String
  content : String
deriving Repr, DecidableEq

/-! ### OpenAI host agent: `src/openai/host_agent/__main__.py` -/

namespace OpenAIHost

/-- One streaming event as classified by the duck-typed probing in
`get_response_from_agent`.  Each constructor corresponds to exactly one
branch of the `if`/`elif` chain over the event object:

* `rawDelta d`: `event.type == raw_response_event`, `event.data` is a
  `ResponseTextDeltaEvent` with attribute `delta = d`;
* `rawContent c`: `event.type == raw_response_event`, `event.data` is not a
  text-delta event but has a string attribute `content = c`;
* `rawOther`: `event.type == raw_response_event` with `data` of any other
  shape (neither branch inside fires);
* `agentUpdated`: `event.type == agent_updated_stream_event` (informational);
* `eventContent c`: the event itself has a string attribute `content = c`;
* `strEvent s`: the event is itself the string `s`;
* `unknown`: none of the recognised shapes (the final `else` that only logs). -/
inductive StreamEvent where
  | rawDelta (delta : String)
  | rawContent (content : String)
  | rawOther
  | agentUpdated
  | eventContent (content : String)
  | strEvent (s : String)
  | unknown
deriving Repr, DecidableEq

/-- The text appended to `accumulated_text` by one event, if any.
`none` means the branch taken neither appends nor yields: a text-delta with
empty payload (`if delta_text:` is false), a raw event of other shape, an
informational agent-updated event, or an unknown event.  Every `some p`
branch in the Python code both appends `p` and yields the new accumulated
text. -/
def eventPayload : StreamEvent → Option String
  | .rawDelta d => if d = "" then none else some d
  | .rawContent c => some c
  | .rawOther => none
  | .agentUpdated => none
  | .eventContent c => some c
  | .strEvent s => some s
  | .unknown => none

/-- The event loop of `get_response_from_agent`: starting from accumulated
text `acc`, fold the events in arrival order; returns the final accumulated
text and the list of contents yielded inside the loop (each yield sends the
whole accumulated text so far, `yield gr.ChatMessage(role=assistant,
content=accumulated_text)`). -/
def processEvents : List StreamEvent → String → String × List String
  | [], acc => (acc, [])
  | e :: es, acc =>
    match eventPayload e with
    | none => processEvents es acc
    | some p =>
      let acc2 := acc ++ p
      let r := processEvents es acc2
      (r.1, acc2 :: r.2)

/-- The fixed placeholder yielded when the stream ends with nothing
accumulated (`if not accumulated_text:` after the loop). -/
def noResponseText : String := "No response received from the agent."

/-- The fixed reply of the outer `except` clause of
`get_response_from_agent`. -/
def errorReplyText : String :=
  "An error occurred while processing your request. Please check the server logs for details."

/-- Contents yielded by `get_response_from_agent` on the normal path
(no exception): the in-loop yields, followed by the placeholder exactly when
the accumulated text is still empty at stream end. -/
def aggregateOutputs (events : List StreamEvent) : List String :=
  let r := processEvents events ""
  if r.1 = "" then r.2 ++ [noResponseText] else r.2

/-- How one invocation of the handler runs, seen from the outside:

* `startError msg`: an exception (message `msg`) is raised before or outside
  the streaming loop and caught by the outer `except`;
* `streamOk events`: `stream_events()` delivers `events` and finishes
  normally;
* `streamError events fallback`: iteration raises after delivering `events`;
  the inner `except` then tries the fallback (`some s` when a fallback value
  `s` is obtained and truthy, `none` when the fallback raises too or is
  falsy). -/
inductive RunOutcome where
  | startError (msg : String)
  | streamOk (events : List StreamEvent)
  | streamError (events : List StreamEvent) (fallback : Option String)
deriving Repr, DecidableEq

/-- The complete `get_response_from_agent` handler as the list of chat
messages it yields for a given run outcome.  After a stream error the code
still falls through to the empty-buffer placeholder check, so the
placeholder is appended there exactly as on the normal path. -/
def get_response_from_agent : RunOutcome → List ChatMessage
  | .startError _ => [⟨"assistant", errorReplyText⟩]
  | .streamOk events => (aggregateOutputs events).map (fun c => ⟨"assistant", c⟩)
  | .streamError events fb =>
    let r := processEvents events ""
    let outs := r.2 ++ (match fb with | some s => [s] | none => [])
    let outs2 := if r.1 = "" then outs ++ [noResponseText] else outs
    outs2.map (fun c => ⟨"assistant", c⟩)

/-! Basic lemmas about the aggregation loop. -/

theorem processEvents_skip (e : StreamEvent) (es : List StreamEvent) (acc : String)
    (h : eventPayload e = none) :
    processEvents (e :: es) acc = processEvents es acc := by
  simp [processEvents, h]

theorem processEvents_push (e : StreamEvent) (es : List StreamEvent) (acc p : String)
    (h : eventPayload e = some p) :
    processEvents (e :: es) acc =
      ((processEvents es (acc ++ p)).1, (acc ++ p) :: (processEvents es (acc ++ p)).2) := by
  simp [processEvents, h]

/-- If the loop yields nothing, the accumulated text never changed. -/
theorem processEvents_outputs_nil (events : List StreamEvent) (acc : String)
    (h : (processEvents events acc).2 = []) :
    (processEvents events acc).1 = acc := by
  induction events generalizing acc with
  | nil => rfl
  | cons e es ih =>
    cases hp : eventPayload e with
    | none =>
      rw [processEvents_skip e es acc hp] at h ⊢
      exact ih acc h
    | some p =>
      rw [processEvents_push e es acc p hp] at h
      simp at h

/-- Interleaving one payload-free event anywhere in the stream changes
neither the final text nor the yields. -/
theorem processEvents_insert_silent (e : StreamEvent) (he : eventPayload e = none)
    (l1 l2 : List StreamEvent) (acc : String) :
    processEvents (l1 ++ e :: l2) acc = processEvents (l1 ++ l2) acc := by
  induction l1 generalizing acc with
  | nil => simpa using processEvents_skip e l2 acc he
  | cons f fs ih =>
    cases hp : eventPayload f with
    | none =>
      simp only [List.cons_append, processEvents_skip f _ _ hp]
      exact ih acc
    | some p =>
      simp only [List.cons_append, processEvents_push f _ _ p hp]
      rw [ih (acc ++ p)]

end OpenAIHost

/-! Prefix order on strings, used to state that the yielded contents only
ever grow by appending. -/

/-- Relation `StrPrefixOf a b` holds when `b` extends `a` on the right. -/
def StrPrefixOf (a b : String) : Prop := ∃ t, b = a ++ t

theorem strPrefixOf_refl (a : String) : StrPrefixOf a a :=
  ⟨"", (String.append_empty a).symm⟩

theorem strPrefixOf_append (a t : String) : StrPrefixOf a (a ++ t) := ⟨t, rfl⟩

theorem strPrefixOf_trans {a b c : String}
    (h1 : StrPrefixOf a b) (h2 : StrPrefixOf b c) : StrPrefixOf a c := by
  obtain ⟨t1, rfl⟩ := h1
  obtain ⟨t2, rfl⟩ := h2
  exact ⟨t1 ++ t2, String.append_assoc a t1 t2⟩

theorem StrPrefixOf.length_le {a b : String} (h : StrPrefixOf a b) :
    a.length ≤ b.length := by
  obtain ⟨t, rfl⟩ := h
  rw [String.length_append]
  exact Nat.le_add_right _ _

theorem strPrefixOf_empty_right {a : String} (h : StrPrefixOf a "") : a = "" := by
  have hl : a.length = 0 := by
    have := h.length_le
    simpa using this
  cases a with
  | mk data =>
    simp [String.length] at hl
    simp [hl]

/-- Everything the aggregation loop yields extends the starting text, each
yield extends the previous one, and the final text extends them all. -/
theorem processEvents_prefix_invariant (events : List OpenAIHost.StreamEvent) (acc : String) :
    (∀ o ∈ (OpenAIHost.processEvents events acc).2, StrPrefixOf acc o) ∧
    StrPrefixOf acc (OpenAIHost.processEvents events acc).1 ∧
    (∀ o ∈ (OpenAIHost.processEvents events acc).2,
      StrPrefixOf o (OpenAIHost.processEvents events acc).1) ∧
    List.Pairwise StrPrefixOf (OpenAIHost.processEvents events acc).2 := by
  induction events generalizing acc with
  | nil =>
    refine ⟨by simp [OpenAIHost.processEvents], strPrefixOf_refl acc, by simp [OpenAIHost.processEvents], ?_⟩
    simp [OpenAIHost.processEvents]
  | cons e es ih =>
    cases hp : OpenAIHost.eventPayload e with
    | none =>
      rw [OpenAIHost.processEvents_skip e es acc hp]
      exact ih acc
    | some p =>
      rw [OpenAIHost.processEvents_push e es acc p hp]
      obtain ⟨ih1, ih2, ih3, ih4⟩ := ih (acc ++ p)
      refine ⟨?_, ?_, ?_, ?_⟩
      · intro o ho
        rcases List.mem_cons.mp ho with h | h
        · exact h ▸ strPrefixOf_append acc p
        · exact strPrefixOf_trans (strPrefixOf_append acc p) (ih1 o h)
      · exact strPrefixOf_trans (strPrefixOf_append acc p) ih2
      · intro o ho
        rcases List.mem_cons.mp ho with h | h
        · exact h ▸ ih2
        · exact ih3 o h
      · exact List.pairwise_cons.mpr ⟨fun o ho => ih1 o ho, ih4⟩

/-! ### Sports results remote agent:
`src/openai/remote_agents/sports_results_agent/agent.py` -/

namespace SportsResultsAgent

/-- The dictionary shape returned and yielded by `OpenAIWebSearchAgent`:
every return site constructs exactly the keys `is_task_complete`,
`require_user_input` and `content`. -/
structure AgentYield where
  is_task_complete : Bool
  require_user_input : Bool
  content : String
deriving Repr, DecidableEq

/-- One event from `stream_result.stream_events()` as classified by the
probing in `OpenAIWebSearchAgent.stream`: either a raw-response text delta
(the only shape the method reacts to) or anything else (skipped). -/
inductive RawEvent where
  | textDelta (delta : String)
  | otherEvent
deriving Repr, DecidableEq

/-- The dict yielded for one stream event, if any: a non-empty text delta
yields an incomplete-task dict carrying just the delta; an empty delta
(`if delta_text:` false) and any other event shape yield nothing. -/
def deltaYield : RawEvent → Option AgentYield
  | .textDelta d => if d = "" then none else some ⟨false, false, d⟩
  | .otherEvent => none

/-- The dict returned or yielded when `self.agent` is `None`. -/
def notInitializedYield : AgentYield :=
  ⟨false, true, "Agent not initialized. Please call initialize() first."⟩

/-- The final completion dict yielded after the event loop finishes. -/
def completionYield : AgentYield := ⟨true, false, "Task completed successfully."⟩

/-- The dict produced by the `except` clauses, embedding the exception
message. -/
def exceptionYield (e : String) : AgentYield :=
  ⟨false, true, "Error processing request: " ++ e⟩

/-- Embedding of `OpenAIWebSearchAgent.stream`, as the list of dicts it yields.
`agentSet` is whether `self.agent` is non-`None`; `events` are the events
the iteration delivers; `streamExc = some e` means the run raises with
message `e` after those events (caught, one error dict yielded),
`none` means the loop completes and the final completion dict is yielded. -/
def stream (agentSet : Bool) (events : List RawEvent) (streamExc : Option String) :
    List AgentYield :=
  if agentSet = false then [notInitializedYield]
  else
    (events.filterMap deltaYield) ++
      (match streamExc with
       | some e => [exceptionYield e]
       | none => [completionYield])

/-- Outcome of one `await Runner.run(self.agent, user_input)` round trip:
it either returns with a `final_output` or raises with a message. -/
inductive RunResult where
  | success (final_output : String)
  | raised (msg : String)
deriving Repr, DecidableEq

/-- Whether a round trip returned normally. -/
def runSucceeds : RunResult → Bool
  | .success _ => true
  | .raised _ => false

/-- The spec-level error value for a failed remote invocation, carrying the
remote address and the cause.  The Python `invoke` never constructs or
raises such a value; it is declared here so that the possibility can be
stated and refuted. -/
structure RemoteInvocationError where
  address : String
  cause : String
deriving Repr, DecidableEq

/-- How a call to `invoke` ends seen from the caller: a normal return of a
dict, or an escaping `RemoteInvocationError`. -/
inductive InvokeOutcome where
  | returned (d : AgentYield)
  | raisedError (e : RemoteInvocationError)
deriving Repr, DecidableEq

/-- Whether an invoke outcome is an escaping `RemoteInvocationError`. -/
def raisesInvocationError : InvokeOutcome → Bool
  | .raisedError _ => true
  | .returned _ => false

/-- The dict computed by `OpenAIWebSearchAgent.invoke`.  `runner` is an
oracle giving the outcome of the n-th underlying round trip; the method
body performs the single call `await Runner.run(...)` — consulting
`runner 0` only — and wraps its outcome:
uninitialized agent and caught exception produce incomplete-task dicts,
success produces a complete-task dict with `result.final_output`. -/
def invokeDict (agentSet : Bool) (runner : Nat → RunResult) : AgentYield :=
  if agentSet = false then notInitializedYield
  else
    match runner 0 with
    | .success out => ⟨true, false, out⟩
    | .raised e => exceptionYield e

/-- Embedding of `OpenAIWebSearchAgent.invoke` as observed by the caller: the method
wraps its whole body in `try`/`except Exception`, so it always returns a
dict and never lets an error escape. -/
def invoke (agentSet : Bool) (runner : Nat → RunResult) : InvokeOutcome :=
  .returned (invokeDict agentSet runner)

end SportsResultsAgent

/-! ### Azure AI Foundry host agent: `src/aifoundry/host_agent/__main__.py` -/

namespace FoundryHost

/-- Reply when `self.routing_agent` is `None` at the top of
`get_response_from_agent`. -/
def notInitReply : String :=
  "❌ **Error**: Routing agent not initialized. Please restart the application."

/-- The progress message yielded before processing. -/
def processingReply : String := "🤔 **Processing your request...**"

/-- Reply when `process_user_message` returns a falsy response. -/
def emptyResponseReply : String := "❌ **Error**: No response received from the agent."

/-- Reply built by the `except` clause from the exception text. -/
def exceptionReply (e : String) : String :=
  "❌ **An error occurred**: " ++ e ++ "\n\nPlease check the server logs for details."

/-- Outcome of `await self.routing_agent.process_user_message(message)`:
a returned response string, or a raised exception with message `e`. -/
inductive ProcessOutcome where
  | success (response : String)
  | raised (msg : String)
deriving Repr, DecidableEq

/-- Embedding of `RoutingAgentApp.get_response_from_agent` as the list of chat messages
it yields.  `agentSet` is whether `self.routing_agent` is non-`None`; a
falsy (empty) response takes the no-response branch. -/
def get_response_from_agent (agentSet : Bool) (outcome : ProcessOutcome) :
    List ChatMessage :=
  if agentSet = false then [⟨"assistant", notInitReply⟩]
  else
    match outcome with
    | .success r =>
      [⟨"assistant", processingReply⟩,
       ⟨"assistant", if r = "" then emptyResponseReply else r⟩]
    | .raised e =>
      [⟨"assistant", processingReply⟩, ⟨"assistant", exceptionReply e⟩]

/-- Observable work done by `RoutingAgentApp.cleanup_routing_agent`. -/
inductive CleanupStep where
  | attemptedRelease
  | loggedSuccess
  | loggedCleanupError
deriving Repr, DecidableEq

/-- Embedding of `RoutingAgentApp.cleanup_routing_agent`: given the current
`self.routing_agent` reference (abstracted to `Option Unit`) and whether the
inner `self.routing_agent.cleanup()` call raises, returns the new reference
and the release work performed.  When the reference is set, the `finally`
clause clears it whether or not `cleanup()` raised; when it is `None`, the
whole body is skipped. -/
def cleanup_routing_agent (routing_agent : Option Unit) (cleanupRaises : Bool) :
    Option Unit × List CleanupStep :=
  match routing_agent with
  | some _ =>
    (none,
     if cleanupRaises then [.attemptedRelease, .loggedCleanupError]
     else [.attemptedRelease, .loggedSuccess])
  | none => (none, [])

/-- Observable steps of `RoutingAgentApp.run` up to interface launch. -/
inductive RunStep where
  | printed (s : String)
  | initAttempted
  | launched
deriving Repr, DecidableEq

/-- The environment variables `RoutingAgentApp.run` requires. -/
def required_env_vars : List String :=
  ["AZURE_AI_AGENT_ENDPOINT", "AZURE_AI_AGENT_MODEL_DEPLOYMENT_NAME"]

/-- The optional service-principal credential variables. -/
def app_creds : List String :=
  ["AZURE_CLIENT_ID", "AZURE_CLIENT_SECRET", "AZURE_TENANT_ID"]

/-- The message printed when required variables are missing, enumerating
them by name (a comma-separated join of the missing names). -/
def missingVarsMessage (missing : List String) : String :=
  "❌ Missing required environment variables: " ++ String.intercalate ", " missing

/-- Embedding of `RoutingAgentApp.run` up to launching the interface, as the list of
steps it performs.  `env v` is `os.getenv(v)` with absence modelled as the
falsy empty string.  With any required variable missing it prints the
enumerated list and returns before `initialize_routing_agent` is called;
otherwise it prints which authentication is used, attempts initialization
and launches. -/
def run (env : String → String) : List RunStep :=
  let missing := required_env_vars.filter (fun v => env v = "")
  if missing.isEmpty then
    (if app_creds.all (fun v => env v ≠ "") then
      [.printed "✅ Using Azure application (service principal) authentication"]
     else
      [.printed "✅ Using DefaultAzureCredential authentication"])
    ++ [.initAttempted, .launched]
  else
    [.printed (missingVarsMessage missing),
     .printed "Please set these environment variables before running the application."]

end FoundryHost

/-! ### The A2A server entry points:
`src/openai/remote_agents/sports_results_agent/__main__.py` and
`src/aifoundry/remote_agents/sports_news_agent/__main__.py` -/

/-- A declared skill inside an agent card (`a2a.types.AgentSkill`). -/
structure AgentSkill where
  id : String
  name : String
  description : String
  tags : List String
  examples : List String
deriving Repr, DecidableEq

/-- Declared capabilities (`a2a.types.AgentCapabilities`). -/
structure AgentCapabilities where
  streaming : Bool
deriving Repr, DecidableEq

/-- A remote agent descriptor (`a2a.types.AgentCard`). -/
structure AgentCard where
  name : String
  description : String
  url : String
  version : String
  defaultInputModes : List String
  defaultOutputModes : List String
  capabilities : AgentCapabilities
  skills : List AgentSkill
deriving Repr, DecidableEq

namespace SportsResultsServer

/-- Embedding of `get_agent_card` of the sports results agent server.  The `host` and
`port` parameters are received but the url field is the f-string
`http://localhost:10001/` which interpolates nothing. -/
def get_agent_card (host : String) (port : Nat) : AgentCard :=
  { name := "SportsResultsAgent"
    description :=
      "This agent provides sports results for various sports leagues such as MLB, NBA, NASCAR, and Golf. "
    url := "http://localhost:10001/"
    version := "1.0.0"
    defaultInputModes := ["text"]
    defaultOutputModes := ["text"]
    capabilities := { streaming := true }
    skills :=
      [{ id := "sports_results_agent"
         name := "Sports Results Agent"
         description :=
           "Provides sports results from various sports leagues.  Include scores, who won, and other relevant information."
         tags := ["mlb", "nba", "nascar", "golf", "colege football"]
         examples :=
           ["Show score for Pirates game last night",
            "What was the final score of the game 7 NBA finals and who won?",
            "Whow won the 2025 US Golf Open Championship and where was it played?"] }] }

end SportsResultsServer

namespace SportsNewsServer

/-- Embedding of `get_agent_card` of the sports news agent server.  As in the results
server, `host` and `port` are ignored by the url field, which is the
constant `http://localhost:10002/`. -/
def get_agent_card (host : String) (port : Nat) : AgentCard :=
  { name := "SportsNewsAgent"
    description := "This agent provides sports news for various sports leagues. "
    url := "http://localhost:10002/"
    version := "1.0.0"
    defaultInputModes := ["text"]
    defaultOutputModes := ["text"]
    capabilities := { streaming := true }
    skills :=
      [{ id := "sports_news_agent"
         name := "Sports News Agent"
         description := "Provides sports news from the Yahoo sports rss feeds. "
         tags := ["mlb", "nba", "nascar", "golf", "colege football"]
         examples :=
           ["Show news for mlb (baseball)",
            "Fetch me the latest news for nascar",
            "Whats the latest news for golf"] }] }

end SportsNewsServer

/-! ### Shared helper lemmas for the claim theorems -/

/-- If the final accumulated text of the loop differs from the starting
text, at least one content was yielded inside the loop. -/
theorem processEvents_outputs_ne_nil (events : List OpenAIHost.StreamEvent) (acc : String)
    (h : (OpenAIHost.processEvents events acc).1 ≠ acc) :
    (OpenAIHost.processEvents events acc).2 ≠ [] := by
  intro hnil
  exact h (OpenAIHost.processEvents_outputs_nil events acc hnil)

/-- The normal-path handler always yields at least one content. -/
theorem aggregateOutputs_ne_nil (events : List OpenAIHost.StreamEvent) :
    OpenAIHost.aggregateOutputs events ≠ [] := by
  unfold OpenAIHost.aggregateOutputs
  by_cases h : (OpenAIHost.processEvents events "").1 = ""
  · simp [h]
  · have h2 := processEvents_outputs_ne_nil events "" h
    simp [h, h2]

/-- Appending a payload of a map of raw deltas folds to string
concatenation: the accumulated text is the left fold of the deltas. -/
theorem processEvents_rawDelta_foldl (ds : List String) (acc : String) :
    (OpenAIHost.processEvents (ds.map OpenAIHost.StreamEvent.rawDelta) acc).1 =
      ds.foldl (fun a b => a ++ b) acc := by
  induction ds generalizing acc with
  | nil => rfl
  | cons d ds ih =>
    by_cases hd : d = ""
    · subst hd
      rw [List.map_cons,
        OpenAIHost.processEvents_skip _ _ acc (by simp [OpenAIHost.eventPayload])]
      rw [ih acc, List.foldl_cons, String.append_empty]
    · rw [List.map_cons,
        OpenAIHost.processEvents_push _ _ acc d (by simp [OpenAIHost.eventPayload, hd])]
      exact ih (acc ++ d)

/-- Claim C1: when the stream ends with no text ever accumulated, the
handler appends the fixed placeholder reply as its last yield, so the
caller never sees an empty final result. -/
theorem C1_empty_buffer_placeholder (events : List OpenAIHost.StreamEvent)
    (h : (OpenAIHost.processEvents events "").1 = "") :
    OpenAIHost.aggregateOutputs events =
      (OpenAIHost.processEvents events "").2 ++ [OpenAIHost.noResponseText] ∧
    (OpenAIHost.aggregateOutputs events).getLast? = some OpenAIHost.noResponseText ∧
    OpenAIHost.noResponseText ≠ "" := by
  refine ⟨?_, ?_, by decide⟩
  · unfold OpenAIHost.aggregateOutputs
    simp [h]
  · unfold OpenAIHost.aggregateOutputs
    simp [h]

theorem C1_empty_buffer_placeholder_witness :
    OpenAIHost.aggregateOutputs [] =
      (OpenAIHost.processEvents [] "").2 ++ [OpenAIHost.noResponseText] :=
  (C1_empty_buffer_placeholder [] rfl).1

/-- Claim C2: both chat handlers always yield at least one assistant
message, for every run outcome including the exceptional ones, and an
exception caught at the boundary becomes a fixed textual error reply. -/
theorem C2_chat_boundary_total :
    (∀ o : OpenAIHost.RunOutcome, OpenAIHost.get_response_from_agent o ≠ []) ∧
    (∀ m, OpenAIHost.get_response_from_agent (.startError m) =
      [⟨"assistant", OpenAIHost.errorReplyText⟩]) ∧
    (∀ (agentSet : Bool) (o : FoundryHost.ProcessOutcome),
      FoundryHost.get_response_from_agent agentSet o ≠ []) ∧
    (∀ e, FoundryHost.get_response_from_agent true (.raised e) =
      [⟨"assistant", FoundryHost.processingReply⟩,
       ⟨"assistant", FoundryHost.exceptionReply e⟩]) := by
  refine ⟨?_, fun m => rfl, ?_, fun e => rfl⟩
  · intro o
    cases o with
    | startError m => simp [OpenAIHost.get_response_from_agent]
    | streamOk events =>
      simp [OpenAIHost.get_response_from_agent, aggregateOutputs_ne_nil events]
    | streamError events fb =>
      simp only [OpenAIHost.get_response_from_agent]
      by_cases h : (OpenAIHost.processEvents events "").1 = ""
      · simp [h]
      · have h2 := processEvents_outputs_ne_nil events "" h
        simp [h, h2]
  · intro agentSet o
    cases agentSet with
    | false => simp [FoundryHost.get_response_from_agent]
    | true => cases o <;> simp [FoundryHost.get_response_from_agent]

/-- Claim C4: one unknown-shaped event inserted anywhere in the stream is
skipped without effect: the handler output equals that of the stream with
the unknown event removed. -/
theorem C4_unknown_event_transparent (l1 l2 : List OpenAIHost.StreamEvent) :
    OpenAIHost.get_response_from_agent
        (.streamOk (l1 ++ OpenAIHost.StreamEvent.unknown :: l2)) =
      OpenAIHost.get_response_from_agent (.streamOk (l1 ++ l2)) ∧
    OpenAIHost.aggregateOutputs (l1 ++ OpenAIHost.StreamEvent.unknown :: l2) =
      OpenAIHost.aggregateOutputs (l1 ++ l2) := by
  have key := OpenAIHost.processEvents_insert_silent OpenAIHost.StreamEvent.unknown rfl l1 l2 ""
  constructor
  · simp [OpenAIHost.get_response_from_agent, OpenAIHost.aggregateOutputs, key]
  · simp [OpenAIHost.aggregateOutputs, key]

/-- Every dict produced for one stream event is an incomplete-task dict. -/
theorem deltaYield_not_complete (x : SportsResultsAgent.RawEvent)
    (y : SportsResultsAgent.AgentYield) (h : SportsResultsAgent.deltaYield x = some y) :
    y.is_task_complete = false := by
  cases x with
  | textDelta d =>
    by_cases hd : d = "" <;> simp [SportsResultsAgent.deltaYield, hd] at h
    rw [← h]
  | otherEvent => simp [SportsResultsAgent.deltaYield] at h

/-- Claim C3: a stream of only text-deltas accumulates to the concatenation
of the payloads in arrival order (for example deltas Hel, lo give Hello),
and the remote-agent stream marks completion only at the very end: every
yield before the last is incomplete, and on a normally ending stream the
final yield is the fixed completion dict. -/
theorem C3_delta_concatenation_and_completion :
    (∀ ds : List String,
      (OpenAIHost.processEvents (ds.map OpenAIHost.StreamEvent.rawDelta) "").1 =
        ds.foldl (fun a b => a ++ b) "") ∧
    (OpenAIHost.processEvents
        (["Hel", "lo"].map OpenAIHost.StreamEvent.rawDelta) "").1 = "Hello" ∧
    (∀ (agentSet : Bool) (evs : List SportsResultsAgent.RawEvent) (exc : Option String),
      ((SportsResultsAgent.stream agentSet evs exc).dropLast).all
        (fun y => y.is_task_complete = false) = true) ∧
    (∀ evs : List SportsResultsAgent.RawEvent,
      SportsResultsAgent.stream true evs none =
        (evs.filterMap SportsResultsAgent.deltaYield) ++
          [SportsResultsAgent.completionYield]) := by
  refine ⟨fun ds => processEvents_rawDelta_foldl ds "", by decide, ?_, fun evs => rfl⟩
  intro agentSet evs exc
  cases agentSet with
  | false => rfl
  | true =>
    rw [List.all_eq_true]
    intro y hy
    have hdrop :
        (SportsResultsAgent.stream true evs exc).dropLast =
          evs.filterMap SportsResultsAgent.deltaYield := by
      cases exc <;> simp [SportsResultsAgent.stream]
    rw [hdrop] at hy
    obtain ⟨x, _, hx⟩ := List.mem_filterMap.mp hy
    simp [deltaYield_not_complete x y hx]

/-- Claim C5: over any mix of event shapes, the contents yielded by the
aggregation loop only grow: each yielded content is a prefix of every later
one and the lengths are non-decreasing. -/
theorem C5_yields_monotone_prefix (events : List OpenAIHost.StreamEvent) :
    List.Pairwise (fun a b => StrPrefixOf a b ∧ a.length ≤ b.length)
      (OpenAIHost.aggregateOutputs events) := by
  obtain ⟨inv1, inv2, inv3, inv4⟩ := processEvents_prefix_invariant events ""
  have step : ∀ l : List String, List.Pairwise StrPrefixOf l →
      List.Pairwise (fun a b => StrPrefixOf a b ∧ a.length ≤ b.length) l :=
    fun l hl => hl.imp (fun h => ⟨h, h.length_le⟩)
  unfold OpenAIHost.aggregateOutputs
  by_cases h : (OpenAIHost.processEvents events "").1 = ""
  · simp only [h, if_pos, if_true]
    apply step
    rw [List.pairwise_append]
    refine ⟨inv4, List.pairwise_singleton _ _, ?_⟩
    intro a ha b hb
    have ha2 : a = "" := strPrefixOf_empty_right (h ▸ inv3 a ha)
    rw [List.mem_singleton] at hb
    subst hb
    exact ⟨OpenAIHost.noResponseText, (String.empty_append _).symm ▸ ha2 ▸ rfl⟩
  · simp only [h, if_neg, if_false]
    exact step _ inv4

/-- Claim C6, counterexample: when the underlying run raises, `invoke` does
not fail with a `RemoteInvocationError` — it returns an ordinary error
dict whose content embeds only the cause, with no address. -/
theorem C6_counterexample_no_raised_error :
    SportsResultsAgent.raisesInvocationError
        (SportsResultsAgent.invoke true
          (fun _ => SportsResultsAgent.RunResult.raised "connection refused")) = false ∧
    SportsResultsAgent.invoke true
        (fun _ => SportsResultsAgent.RunResult.raised "connection refused") =
      SportsResultsAgent.InvokeOutcome.returned
        ⟨false, true, "Error processing request: connection refused"⟩ := by
  constructor
  · rfl
  · decide

/-- Claim C6 (amended): `invoke` performs a single round trip — its outcome
depends only on the first run result, so there is no retry — and either
returns the complete-task dict with the final text on success, or, when the
run raises, returns (without raising) an incomplete-task dict whose content
embeds the cause message; no `RemoteInvocationError` ever escapes. -/
theorem C6_single_attempt_fail_soft :
    (∀ (agentSet : Bool) (f g : Nat → SportsResultsAgent.RunResult), f 0 = g 0 →
      SportsResultsAgent.invoke agentSet f = SportsResultsAgent.invoke agentSet g) ∧
    (∀ (f : Nat → SportsResultsAgent.RunResult) (out : String),
      f 0 = SportsResultsAgent.RunResult.success out →
      SportsResultsAgent.invoke true f =
        SportsResultsAgent.InvokeOutcome.returned ⟨true, false, out⟩) ∧
    (∀ (f : Nat → SportsResultsAgent.RunResult) (e : String),
      f 0 = SportsResultsAgent.RunResult.raised e →
      SportsResultsAgent.invoke true f =
        SportsResultsAgent.InvokeOutcome.returned (SportsResultsAgent.exceptionYield e)) ∧
    (∀ (agentSet : Bool) (f : Nat → SportsResultsAgent.RunResult),
      SportsResultsAgent.raisesInvocationError
        (SportsResultsAgent.invoke agentSet f) = false) := by
  refine ⟨?_, ?_, ?_, fun agentSet f => rfl⟩
  · intro agentSet f g h
    cases agentSet <;>
      simp [SportsResultsAgent.invoke, SportsResultsAgent.invokeDict, h]
  · intro f out h
    simp [SportsResultsAgent.invoke, SportsResultsAgent.invokeDict, h]
  · intro f e h
    simp [SportsResultsAgent.invoke, SportsResultsAgent.invokeDict, h]

theorem C6_single_attempt_fail_soft_witness :
    SportsResultsAgent.invoke true
        (fun _ => SportsResultsAgent.RunResult.success "Final score 3-2") =
      SportsResultsAgent.InvokeOutcome.returned ⟨true, false, "Final score 3-2"⟩ ∧
    SportsResultsAgent.invoke true
        (fun _ => SportsResultsAgent.RunResult.raised "timeout") =
      SportsResultsAgent.InvokeOutcome.returned
        (SportsResultsAgent.exceptionYield "timeout") :=
  ⟨C6_single_attempt_fail_soft.2.1 _ "Final score 3-2" rfl,
   C6_single_attempt_fail_soft.2.2.1 _ "timeout" rfl⟩

/-- Claim C7: when any required environment variable is absent, `run`
prints the list of exactly the missing variable names and returns without
ever attempting routing-agent initialization or launching the interface. -/
theorem C7_missing_env_vars_early_exit (env : String → String)
    (h : FoundryHost.required_env_vars.filter (fun v => env v = "") ≠ []) :
    FoundryHost.run env =
      [.printed (FoundryHost.missingVarsMessage
          (FoundryHost.required_env_vars.filter (fun v => env v = ""))),
       .printed "Please set these environment variables before running the application."] ∧
    FoundryHost.RunStep.initAttempted ∉ FoundryHost.run env ∧
    FoundryHost.RunStep.launched ∉ FoundryHost.run env := by
  have hne : (FoundryHost.required_env_vars.filter (fun v => env v = "")).isEmpty = false := by
    rcases hf : FoundryHost.required_env_vars.filter (fun v => env v = "") with _ | ⟨a, l⟩
    · exact absurd hf h
    · rfl
  refine ⟨?_, ?_, ?_⟩ <;> simp [FoundryHost.run, hne]

theorem C7_missing_env_vars_early_exit_witness :
    FoundryHost.run (fun _ => "") =
      [.printed (FoundryHost.missingVarsMessage FoundryHost.required_env_vars),
       .printed "Please set these environment variables before running the application."] ∧
    FoundryHost.RunStep.initAttempted ∉ FoundryHost.run (fun _ => "") := by
  have h := C7_missing_env_vars_early_exit (fun _ => "") (by decide)
  exact ⟨h.1, h.2.1⟩

/-- Claim C8: cleanup is idempotent: the first call clears the routing
agent reference (whether or not the inner cleanup raises), and a second
call on the cleared state performs no release work and leaves the state
unchanged. -/
theorem C8_cleanup_idempotent (routing_agent : Option Unit) (r r2 : Bool) :
    (FoundryHost.cleanup_routing_agent routing_agent r).1 = none ∧
    FoundryHost.cleanup_routing_agent
        (FoundryHost.cleanup_routing_agent routing_agent r).1 r2 = (none, []) := by
  cases routing_agent <;> cases r <;>
    simp [FoundryHost.cleanup_routing_agent]

/-- Claim C9: every dict `invoke` produces has the three fixed fields and
satisfies `is_task_complete = not require_user_input`, with
`is_task_complete` true exactly when the agent is initialized and the
single round trip succeeds. -/
theorem C9_invoke_dict_invariant (agentSet : Bool)
    (runner : Nat → SportsResultsAgent.RunResult) :
    (SportsResultsAgent.invokeDict agentSet runner).is_task_complete =
      !(SportsResultsAgent.invokeDict agentSet runner).require_user_input ∧
    (SportsResultsAgent.invokeDict agentSet runner).is_task_complete =
      (agentSet && SportsResultsAgent.runSucceeds (runner 0)) := by
  cases agentSet with
  | false =>
    simp [SportsResultsAgent.invokeDict, SportsResultsAgent.notInitializedYield]
  | true =>
    cases h : runner 0 <;>
      simp [SportsResultsAgent.invokeDict, SportsResultsAgent.runSucceeds,
        SportsResultsAgent.exceptionYield, h]

theorem C9_invoke_dict_invariant_witness :
    (SportsResultsAgent.invokeDict true
        (fun _ => SportsResultsAgent.RunResult.success "done")).is_task_complete =
      !(SportsResultsAgent.invokeDict true
          (fun _ => SportsResultsAgent.RunResult.success "done")).require_user_input :=
  (C9_invoke_dict_invariant true (fun _ => SportsResultsAgent.RunResult.success "done")).1

/-- Claim C10: both server card builders ignore their host and port
arguments: for every host and port the advertised url is the fixed
localhost address, and the whole card is the same for all arguments. -/
theorem C10_agent_card_url_constant (host h2 : String) (port p2 : Nat) :
    (SportsResultsServer.get_agent_card host port).url = "http://localhost:10001/" ∧
    (SportsNewsServer.get_agent_card host port).url = "http://localhost:10002/" ∧
    SportsResultsServer.get_agent_card host port =
      SportsResultsServer.get_agent_card h2 p2 ∧
    SportsNewsServer.get_agent_card host port = SportsNewsServer.get_agent_card h2 p2 :=
  ⟨rfl, rfl, rfl, rfl⟩

end A2A
